import Mathlib

/-!
Verification of the cole-mine smart-ring wire-protocol engine.

This file is a shallow embedding, in Lean 4, of the parts of the Rust
sources that the checked properties are about:

* the command encoder, src/client.rs, impl From for a 16-byte array;
* the packet parser, src/incoming_messages/mod.rs (PacketParser with
  handle_uart, handle_heart_rate, handle_sport_detail, handle_stress,
  handle_real_time, handle_v2, check_for_complete_big_data);
* the per-family state machines: HeartRateState (src/heart_rate.rs),
  SportDetailState (src/incoming_messages/sport_detail.rs), StressState
  (src/incoming_messages/stress.rs), BigDataState and the sleep decoder
  (src/incoming_messages/big_data.rs).

Modelling conventions, used throughout:

* Rust u8/u16/u32 values are Lean Nat; wherever the source can overflow
  or wrap, the wrap is written explicitly with a modulus (release-build
  two-complement wrap semantics; a comment marks the spots where a debug
  build would abort instead).
* byte buffers are List Nat;
* a Rust slice-index that can abort the process is modelled by the
  result constructor PRes.panic, a recoverable Result error (the
  question-mark operator) by PRes.err;
* time values: a calendar date is an integer day number, a date-time is
  an integer count of minutes, with midnight of day d at d * 1440; a
  Unix timestamp is an integer count of seconds.  The decoders never
  read a system clock here: today is a parameter.
-/

/-- Outcome of running a piece of Rust code: a process abort (index out
of bounds, arithmetic overflow in a debug build), a recoverable error
value, or a normal return. -/
inductive PRes (α : Type) where
  | panic : String → PRes α
  | err : String → PRes α
  | ok : α → PRes α
deriving DecidableEq, Repr

/-- Sequencing of fallible steps: panics and errors short-circuit. -/
def PRes.bind {α β : Type} : PRes α → (α → PRes β) → PRes β
  | .panic m, _ => .panic m
  | .err m, _ => .err m
  | .ok a, f => f a

/-- Rust slice indexing packet then bracket i: aborts when out of bounds. -/
def idx (l : List Nat) (i : Nat) : PRes Nat :=
  match l[i]? with
  | some b => .ok b
  | none => .panic "index out of bounds"

/-- The argument of Command::SetTime: src/client.rs uses a
time::OffsetDateTime, of which the encoder reads the calendar and clock
components only, so those components are the model. -/
structure DateTime where
  year : Int
  month : Nat
  day : Nat
  hour : Nat
  minute : Nat
  second : Nat
deriving DecidableEq, Repr

/-- enum Command, src/client.rs. -/
inductive Command where
  | ReadSportDetail (day_offset : Nat)
  | ReadHeartRate (timestamp : Nat)
  | ReadStress (day_offset : Nat)
  | GetHeartRateSettings
  | SetHeartRateSettings (enabled : Bool) (interval : Nat)
  | StartRealTimeHeartRate
  | ContinueRealTimeHeartRate
  | StopRealTimeHeartRate
  | StartSpo2
  | StopSpo2
  | Reboot
  | SetTime (when : DateTime) (language : Nat)
  | BlinkTwice
  | BatteryInfo
  | Raw (bytes : List Nat)
deriving DecidableEq, Repr

/-- fn checksum, src/client.rs: the byte sum (a u32, which cannot
overflow on 16 bytes) truncated to the low 8 bits. -/
def checksum (packet : List Nat) : Nat := packet.sum % 256

/-- u32::to_le_bytes. -/
def u32_le_bytes (ts : Nat) : List Nat :=
  [ts % 256, ts / 256 % 256, ts / 65536 % 256, ts / 16777216 % 256]

/-- Vec::resize(n, 0): truncate or zero-pad to exactly n elements. -/
def resize_zero (l : List Nat) (n : Nat) : List Nat :=
  l.take n ++ List.replicate (n - l.length) 0

/-- Bytes 0..=14 of the encoded frame: each arm of the match in
impl From of Command for a 16-byte array (src/client.rs) writes its
layout into a zeroed buffer, so each arm here lists the written prefix
followed by the remaining zero bytes.  In the SetTime arm the source
writes (when.year().unsigned_abs() % 2000) as u8; the cast truncates
modulo 256.  In the Raw arm the source resizes the payload to 16 bytes
(truncating or zero-filling) and copies bytes 0..15. -/
def encode_body : Command → List Nat
  | .ReadSportDetail day_offset =>
      [67, day_offset, 15, 0, 95, 1] ++ List.replicate 9 0
  | .ReadHeartRate timestamp =>
      21 :: u32_le_bytes timestamp ++ List.replicate 10 0
  | .ReadStress day_offset =>
      [55, day_offset] ++ List.replicate 13 0
  | .GetHeartRateSettings =>
      [22, 1] ++ List.replicate 13 0
  | .SetHeartRateSettings enabled interval =>
      [22, 2, if enabled then 1 else 2, interval] ++ List.replicate 11 0
  | .StartRealTimeHeartRate =>
      [105, 1] ++ List.replicate 13 0
  | .ContinueRealTimeHeartRate =>
      [30, 3] ++ List.replicate 13 0
  | .StopRealTimeHeartRate =>
      [106, 1] ++ List.replicate 13 0
  | .StartSpo2 =>
      [105, 3, 37] ++ List.replicate 12 0
  | .StopSpo2 =>
      [106, 3] ++ List.replicate 13 0
  | .Reboot =>
      [8, 1] ++ List.replicate 13 0
  | .SetTime when language =>
      [1, when.year.natAbs % 2000 % 256, when.month, when.day,
       when.hour, when.minute, when.second, language] ++ List.replicate 7 0
  | .BlinkTwice =>
      16 :: List.replicate 14 0
  | .BatteryInfo =>
      3 :: List.replicate 14 0
  | .Raw bytes =>
      (resize_zero bytes 16).take 15

/-- impl From of Command for a 16-byte array, src/client.rs: the frame
is the 15-byte body followed by the checksum; the source computes
checksum over the full 16-byte buffer whose last byte is still 0. -/
def command_to_bytes (c : Command) : List Nat :=
  encode_body c ++ [checksum (encode_body c ++ [0])]

/-- struct HeartRate, src/heart_rate.rs (date: Unix seconds). -/
structure HeartRate where
  range : Nat
  rates : List Nat
  date : Int
deriving DecidableEq, Repr

/-- enum HeartRateState, src/heart_rate.rs. -/
inductive HeartRateState where
  | Length (size : Nat) (range : Nat)
  | Recieving (date : Int) (size : Nat) (range : Nat) (rates : List Nat)
  | Complete (range : Nat) (rates : List Nat) (date : Int)
deriving DecidableEq, Repr

/-- impl TryFrom of a byte slice for HeartRateState, src/heart_rate.rs.
The PacketParser hands this the full frame, opcode byte included.
OffsetDateTime::from_unix_timestamp(0) cannot fail, so the 255 fast
path always returns the Complete state with the epoch date. -/
def HeartRateState.try_from (value : List Nat) : PRes HeartRateState :=
  PRes.bind (idx value 1) fun v1 =>
  if v1 = 255 then
    .ok (.Complete 0 [] 0)
  else if value.length < 15 then
    .err "Packet too short for heart rate data"
  else if v1 ≠ 0 then
    .err "unexpected initial heart rate message expected 0"
  else
    PRes.bind (idx value 2) fun v2 =>
    PRes.bind (idx value 3) fun v3 =>
    .ok (.Length (v2 - 1) v3)

/-- HeartRateState::step_length, src/heart_rate.rs.  Reads the u32
little-endian timestamp from bytes 2..6 (a copy_from_slice, which
aborts when the packet is shorter) and the first nine samples from
bytes 6..15 (a slice, which aborts when the packet is shorter).  A u32
timestamp is always in range for from_unix_timestamp. -/
def HeartRateState.step_length (size range : Nat) (packet : List Nat) : PRes HeartRateState :=
  PRes.bind (idx packet 1) fun p1 =>
  if p1 ≠ 1 then
    .err "heart rate packet stream missing datetime packet"
  else if packet.length < 6 then
    .panic "copy from slice out of bounds"
  else
    let ts := packet.getD 2 0 + 256 * packet.getD 3 0 + 65536 * packet.getD 4 0 +
      16777216 * packet.getD 5 0
    if packet.length < 15 then
      .panic "slice 6..15 out of bounds"
    else
      .ok (.Recieving (Int.ofNat ts) size range ((packet.drop 6).take 9))

/-- HeartRateState::step_receiving, src/heart_rate.rs: appends bytes
2..15 (a slice, aborting on shorter packets) and completes when the
sequence byte equals the recorded size. -/
def HeartRateState.step_receiving (size range : Nat) (date : Int) (rates : List Nat)
    (packet : List Nat) : PRes HeartRateState :=
  PRes.bind (idx packet 1) fun p1 =>
  if p1 = 0 then
    .err "Unexpected size packet after date packet"
  else if p1 = 1 then
    .err "Unexpected date packet after date packet"
  else if packet.length < 15 then
    .panic "slice 2..15 out of bounds"
  else
    let rates2 := rates ++ (packet.drop 2).take 13
    .ok (if p1 = size then .Complete range rates2 date
      else .Recieving date size range rates2)

/-- HeartRateState::step, src/heart_rate.rs. -/
def HeartRateState.step (s : HeartRateState) (packet : List Nat) : PRes HeartRateState :=
  match s with
  | .Length size range => HeartRateState.step_length size range packet
  | .Recieving date size range rates =>
      HeartRateState.step_receiving size range date rates packet
  | .Complete _ _ _ => .err "Unexpected packet after complete!"

/-- struct SportDetail, src/incoming_messages/sport_detail.rs. -/
structure SportDetail where
  year : Nat
  month : Nat
  day : Nat
  time_index : Nat
  calories : Nat
  steps : Nat
  distance : Nat
deriving DecidableEq, Repr

/-- The BCD helper inside SportDetail::try_from. -/
def bcd_to_decimal (b : Nat) : Nat := ((b >>> 4) &&& 15) * 10 + (b &&& 15)

/-- impl TryFrom of a byte slice for SportDetail,
src/incoming_messages/sport_detail.rs: the length is checked before any
access, so this function never aborts. -/
def SportDetail.try_from (value : List Nat) : Except String SportDetail :=
  if value.length < 12 then
    .error "SportDetail must be at least 12 bytes"
  else
    .ok { year := bcd_to_decimal (value.getD 0 0) + 2000
          month := bcd_to_decimal (value.getD 1 0)
          day := bcd_to_decimal (value.getD 2 0)
          time_index := value.getD 3 0
          calories := value.getD 6 0 + 256 * value.getD 7 0
          steps := value.getD 8 0 + 256 * value.getD 9 0
          distance := value.getD 10 0 + 256 * value.getD 11 0 }

/-- SportDetail::apply_new_calories, src/incoming_messages/sport_detail.rs:
a u16 in-place multiplication by 10, which wraps modulo 2^16 in a
release build (a debug build aborts on the overflow). -/
def SportDetail.apply_new_calories (p : SportDetail) : SportDetail :=
  { p with calories := p.calories * 10 % 65536 }

/-- enum SportDetailState, src/incoming_messages/sport_detail.rs. -/
inductive SportDetailState where
  | Initial (new_cal_proto : Bool)
  | Recieving (new_cal_proto : Bool) (packets : List SportDetail)
  | Complete (packets : List SportDetail)
deriving DecidableEq, Repr

/-- SportDetailState::new, src/incoming_messages/sport_detail.rs.  The
non-sentinel arm parses bytes 1..len-1 of the frame (both indices are
in range once byte 1 was read). -/
def SportDetailState.new (packet : List Nat) : PRes SportDetailState :=
  PRes.bind (idx packet 0) fun p0 =>
  if p0 ≠ 67 then
    .err "Invalid prefix for sport detail state"
  else
    PRes.bind (idx packet 1) fun p1 =>
    if p1 = 255 then
      .ok (.Complete [])
    else if p1 = 240 then
      .ok (.Initial true)
    else
      match SportDetail.try_from ((packet.drop 1).dropLast) with
      | .error e => .err e
      | .ok rec1 => .ok (.Recieving false [rec1])

/-- SportDetailState::step, src/incoming_messages/sport_detail.rs.
The batch is complete when byte 5 (index in batch) equals byte 6 (total
in batch) minus one; the subtraction is on u8 and wraps in a release
build (a debug build aborts when byte 6 is 0).  Records are parsed from
bytes 1.. of the frame; under the new-calorie protocol each record has
apply_new_calories applied on insert. -/
def SportDetailState.step (s : SportDetailState) (packet : List Nat) : PRes SportDetailState :=
  match s with
  | .Initial new_cal_proto =>
      PRes.bind (idx packet 5) fun p5 =>
      PRes.bind (idx packet 6) fun p6 =>
      let done := p5 = (p6 + 255) % 256
      match SportDetail.try_from (packet.drop 1) with
      | .error e => .err e
      | .ok rec1 =>
        let rec2 := if new_cal_proto then rec1.apply_new_calories else rec1
        .ok (if done then .Complete [rec2] else .Recieving new_cal_proto [rec2])
  | .Recieving new_cal_proto packets =>
      PRes.bind (idx packet 5) fun p5 =>
      PRes.bind (idx packet 6) fun p6 =>
      match SportDetail.try_from (packet.drop 1) with
      | .error e => .err e
      | .ok rec1 =>
        let rec2 := if new_cal_proto then rec1.apply_new_calories else rec1
        .ok (if p5 = (p6 + 255) % 256 then .Complete (packets ++ [rec2])
          else .Recieving new_cal_proto (packets ++ [rec2]))
  | .Complete _ => .err "step after complete"

/-- Repeated SportDetailState::step calls, one per frame, stopping at
the first abort or error, as the parser performs them. -/
def run_sport_steps (s : SportDetailState) : List (List Nat) → PRes SportDetailState
  | [] => .ok s
  | f :: fs =>
    match SportDetailState.step s f with
    | .panic m => .panic m
    | .err e => .err e
    | .ok s2 => run_sport_steps s2 fs

/-- enum StressState, src/incoming_messages/stress.rs. -/
inductive StressState where
  | Length (length : Nat) (minutes_appart : Nat)
  | Receiving (target_length : Nat) (measurements : List Nat) (minutes_appart : Nat)
  | Complete (measurements : List Nat) (minutes_appart : Nat)
deriving DecidableEq, Repr

/-- StressState::new, src/incoming_messages/stress.rs.  packet[2] - 1
is a u8 subtraction: it wraps in a release build (a debug build aborts
when packet[2] is 0). -/
def StressState.new (packet : List Nat) : PRes StressState :=
  PRes.bind (idx packet 0) fun p0 =>
  if p0 ≠ 55 then
    .err "Error parsing stress state"
  else
    PRes.bind (idx packet 1) fun p1 =>
    if p1 = 255 then
      .ok (.Complete [] 0)
    else if p1 ≠ 0 then
      .err "unexpected initial stress state expected index 1 to be 0"
    else
      PRes.bind (idx packet 2) fun p2 =>
      PRes.bind (idx packet 3) fun p3 =>
      .ok (.Length ((p2 + 255) % 256) p3)

/-- StressState::step, src/incoming_messages/stress.rs.  The slices
3..len-1 and 2..len-1 abort when the packet is shorter than 4
(respectively 3) bytes. -/
def StressState.step (s : StressState) (packet : List Nat) : PRes StressState :=
  PRes.bind (idx packet 0) fun p0 =>
  if p0 ≠ 55 then
    .err "Invalid stress state packet"
  else
    match s with
    | .Length length minutes_appart =>
        PRes.bind (idx packet 1) fun p1 =>
        if p1 = 0 then
          .ok (.Complete [] minutes_appart)
        else if packet.length < 4 then
          .panic "slice 3..len-1 out of bounds"
        else
          .ok (.Receiving length ((packet.drop 3).dropLast) minutes_appart)
    | .Receiving target_length measurements minutes_appart =>
        PRes.bind (idx packet 1) fun p1 =>
        if p1 = 1 then
          if packet.length < 4 then
            .panic "slice 3..len-1 out of bounds"
          else
            .ok (.Receiving target_length (measurements ++ (packet.drop 3).dropLast)
              minutes_appart)
        else if packet.length < 3 then
          .panic "slice 2..len-1 out of bounds"
        else
          let measurements2 := measurements ++ (packet.drop 2).dropLast
          if target_length = p1 then
            .ok (.Complete measurements2 minutes_appart)
          else
            .ok (.Receiving target_length measurements2 minutes_appart)
    | .Complete _ _ => .err "Step after complete"

/-- enum SleepStage, src/incoming_messages/big_data.rs: each stage
carries its minute count. -/
inductive SleepStage where
  | Light (minutes : Nat)
  | Deep (minutes : Nat)
  | Rem (minutes : Nat)
  | Awake (minutes : Nat)
deriving DecidableEq, Repr

/-- struct SleepSession, src/incoming_messages/big_data.rs; start and
end are date-times, modelled as minutes (midnight of day d is d * 1440). -/
structure SleepSession where
  start : Int
  end_ : Int
  stages : List SleepStage
deriving DecidableEq, Repr

/-- struct SleepData, src/incoming_messages/big_data.rs. -/
structure SleepData where
  sessions : List SleepSession
deriving DecidableEq, Repr

/-- struct OxygenMeasurement, src/incoming_messages/big_data.rs. -/
structure OxygenMeasurement where
  min : Nat
  max : Nat
  when : Int
deriving DecidableEq, Repr

/-- struct OxygenData, src/incoming_messages/big_data.rs. -/
structure OxygenData where
  samples : List OxygenMeasurement
deriving DecidableEq, Repr

/-- enum BigDataPacket, src/incoming_messages/big_data.rs. -/
inductive BigDataPacket where
  | Sleep (data : List Nat)
  | Oxygen (data : List Nat)
deriving DecidableEq, Repr

/-- BigDataPacket::get_data_ref. -/
def BigDataPacket.data : BigDataPacket → List Nat
  | .Sleep d => d
  | .Oxygen d => d

/-- BigDataPacket::extend_from_slice. -/
def BigDataPacket.extend : BigDataPacket → List Nat → BigDataPacket
  | .Sleep d, bytes => .Sleep (d ++ bytes)
  | .Oxygen d, bytes => .Oxygen (d ++ bytes)

/-- enum BigDataState, src/incoming_messages/big_data.rs. -/
inductive BigDataState where
  | Partial (target_length : Nat) (packet : BigDataPacket)
  | Complete (packet : BigDataPacket)
deriving DecidableEq, Repr

/-- BigDataState::step, src/incoming_messages/big_data.rs: append the
bytes and complete exactly when the accumulated length equals the
declared target length.  On the complete state it returns an error and
leaves the state unchanged. -/
def BigDataState.step (s : BigDataState) (bytes : List Nat) : Except String BigDataState :=
  match s with
  | .Complete _ => .error "step after complete"
  | .Partial target_length packet =>
    let packet2 := packet.extend bytes
    if packet2.data.length = target_length then
      .ok (.Complete packet2)
    else
      .ok (.Partial target_length packet2)

/-- BigDataState::new, src/incoming_messages/big_data.rs.  Reads the
opcode byte (aborting on an empty packet), the declared length from the
little-endian u16 at bytes 2..4 (a slice, aborting when shorter), the
kind from byte 1, and then steps the fresh partial state with the
payload bytes 6.. of the start frame (a slice, aborting when shorter). -/
def BigDataState.new (bytes : List Nat) : PRes BigDataState :=
  PRes.bind (idx bytes 0) fun b0 =>
  if b0 ≠ 188 then
    .err "Invalid bytes for bigdata state"
  else if bytes.length < 4 then
    .panic "slice 2..4 out of bounds"
  else
    let target_length := bytes.getD 2 0 + 256 * bytes.getD 3 0
    let tag := bytes.getD 1 0
    match (if tag = 39 then some (BigDataPacket.Sleep [])
      else if tag = 42 then some (BigDataPacket.Oxygen []) else none) with
    | none => .err "Unknown big data type"
    | some packet =>
      if bytes.length < 6 then
        .panic "slice 6.. out of bounds"
      else
        match BigDataState.step (.Partial target_length packet) (bytes.drop 6) with
        | .error e => .err e
        | .ok st => .ok st

/-- One byte from the sleep-decoder iterator (Iterator::next). -/
def next_byte : List Nat → Option (Nat × List Nat)
  | [] => none
  | b :: rest => some (b, rest)

/-- fn try_u16_from_iter, src/util.rs: two bytes, little endian. -/
def try_u16_from_iter (l : List Nat) : Option (Nat × List Nat) :=
  match l with
  | a :: b :: rest => some (a + 256 * b, rest)
  | _ => none

/-- The per-stage match inside the sleep decoder,
src/incoming_messages/big_data.rs: stage 0 is skipped with a warning,
2/3/4/5 map to the four stages, anything else is a decoder error. -/
def sleep_stage_of (stage minutes : Nat) : Except String (Option SleepStage) :=
  if stage = 0 then .ok none
  else if stage = 2 then .ok (some (.Light minutes))
  else if stage = 3 then .ok (some (.Deep minutes))
  else if stage = 4 then .ok (some (.Rem minutes))
  else if stage = 5 then .ok (some (.Awake minutes))
  else .error "sleep sample type invalid"

/-- The stage loop of the sleep decoder: remaining_bytes counts down by
a u8 subtraction of 2 per pair (which wraps in a release build; a debug
build aborts when it would go below zero). -/
def parse_stages : Nat → List Nat → Except String (List SleepStage × List Nat)
  | 0, l => .ok ([], l)
  | _ + 1, [] => .error "Packet too short: stage"
  | _ + 1, [_] => .error "Packet too short: minutes"
  | r + 1, stage :: minutes :: rest =>
    match sleep_stage_of stage minutes with
    | .error e => .error e
    | .ok none => parse_stages ((r + 255) % 256) rest
    | .ok (some st) =>
      match parse_stages ((r + 255) % 256) rest with
      | .error e => .error e
      | .ok (stages, l2) => .ok (st :: stages, l2)

/-- One day block of the sleep decoder loop,
src/incoming_messages/big_data.rs.  The source computes, for a block
read days_ago days in the past, day = today - (days_ago - 1) in u64
arithmetic: days_ago 0 underflows (the time crate then aborts on the
out-of-range duration).  When start_min exceeds end_min the session
starts on the block day, 1440 - start_min minutes before midnight (this
u64 subtraction underflows when start_min exceeds 1440); otherwise it
starts on the previous day, start_min minutes after midnight.  The end
is always end_min minutes after midnight of the block day. -/
def parse_day (today : Int) (l : List Nat) : Except String (SleepSession × List Nat) :=
  match next_byte l with
  | none => .error "Packet too short: days ago"
  | some (days_ago, l1) =>
    if days_ago = 0 then .error "panic: days_ago as u64 - 1 underflows"
    else
      let day : Int := today - (days_ago - 1 : Nat)
      match next_byte l1 with
      | none => .error "Packet too short: day bytes"
      | some (day_bytes, l2) =>
        match try_u16_from_iter l2 with
        | none => .error "Packet too short: start"
        | some (start_min, l3) =>
          match try_u16_from_iter l3 with
          | none => .error "Packet too short: end"
          | some (end_min, l4) =>
            if end_min < start_min ∧ 1440 < start_min then
              .error "panic: 1440 - start underflows"
            else
              let start_dt : Int :=
                if end_min < start_min then day * 1440 - (1440 - (start_min : Int))
                else (day - 1) * 1440 + start_min
              let end_dt : Int := day * 1440 + end_min
              match parse_stages ((day_bytes + 252) % 256) l4 with
              | .error e => .error e
              | .ok (stages, l5) => .ok (⟨start_dt, end_dt, stages⟩, l5)

/-- The day loop of the sleep decoder: n day blocks in sequence. -/
def parse_days (today : Int) : Nat → List Nat → Except String (List SleepSession)
  | 0, _ => .ok []
  | n + 1, l =>
    match parse_day today l with
    | .error e => .error e
    | .ok (session, l2) =>
      match parse_days today n l2 with
      | .error e => .error e
      | .ok sessions => .ok (session :: sessions)

/-- impl TryFrom of BigDataPacket for SleepData,
src/incoming_messages/big_data.rs.  The first byte is the day count;
the loop runs for i in 1..days, i.e. days - 1 iterations, over the
remaining bytes.  On an empty buffer the source aborts taking the
slice 1.. (first().unwrap_or_default() tolerates the empty buffer but
the slice does not).  Bytes left after the loop are ignored. -/
def sleep_data_try_from (today : Int) : BigDataPacket → Except String SleepData
  | .Oxygen _ => .error "Invlaid big data packet for sleep"
  | .Sleep [] => .error "panic: slice 1.. out of bounds"
  | .Sleep (days :: rest) =>
    match parse_days today (days - 1) rest with
    | .error e => .error e
    | .ok sessions => .ok ⟨sessions⟩

/-- enum RealTimeEvent, src/incoming_messages/mod.rs. -/
inductive RealTimeEvent where
  | HeartRate (value : Nat)
  | Oxygen (value : Nat)
  | Error (code : Nat)
deriving DecidableEq, Repr

/-- enum CommandReply, src/incoming_messages/mod.rs. -/
inductive CommandReply where
  | BatteryInfo (level : Nat) (charging : Bool)
  | HeartRateSettings (enabled : Bool) (interval : Nat)
  | SportDetail (packets : List SportDetail)
  | HeartRate (hr : HeartRate)
  | RealTimeData (ev : RealTimeEvent)
  | BlinkTwice
  | SetTime
  | Reboot
  | StopRealTime
  | SetHrSettings
  | Stress (time_interval_sec : Nat) (measurements : List Nat)
  | Sleep (data : SleepData)
  | Oxygen (data : OxygenData)
  | Unknown (bytes : List Nat)
deriving DecidableEq, Repr

/-- struct MultiPacketStates, src/incoming_messages/mod.rs: the
partial state the parser holds, at most one per transaction family. -/
structure MultiPacketStates where
  sport_detail : Option SportDetailState
  heart_rate_state : Option HeartRateState
  stress_state : Option StressState
  partial_big_data : Option BigDataState
deriving DecidableEq, Repr

/-- MultiPacketStates::default(): no partial state. -/
def initial_states : MultiPacketStates := ⟨none, none, none, none⟩

/-- PacketParser::handle_real_time, src/incoming_messages/mod.rs: a
non-zero status byte is an error event; otherwise mode byte 1 is a
heart-rate sample and every other mode an oxygen sample, both carrying
byte 3 as the value. -/
def handle_real_time (packet : List Nat) : PRes CommandReply :=
  PRes.bind (idx packet 2) fun p2 =>
  if p2 ≠ 0 then
    .ok (.RealTimeData (.Error p2))
  else
    PRes.bind (idx packet 1) fun p1 =>
    PRes.bind (idx packet 3) fun p3 =>
    if p1 = 1 then
      .ok (.RealTimeData (.HeartRate p3))
    else
      .ok (.RealTimeData (.Oxygen p3))

/-- PacketParser::handle_heart_rate, src/incoming_messages/mod.rs.
With a partial state present, the state is taken out, the frame is
stepped with its trailing checksum byte sliced off (packet[..len-1]
aborts on an empty packet); a step error logs and yields no reply with
the partial state dropped; a complete result is emitted and anything
else stored back.  With no partial state, TryFrom runs on the full
frame; a Complete result is emitted at once, any other state is
stored, and a conversion error propagates as an error. -/
def handle_heart_rate (st : MultiPacketStates) (packet : List Nat) :
    PRes (Option CommandReply) × MultiPacketStates :=
  match st.heart_rate_state with
  | some s =>
    let st2 := { st with heart_rate_state := none }
    if packet.length = 0 then
      (.panic "len - 1 underflows", st2)
    else
      match HeartRateState.step s packet.dropLast with
      | .panic m => (.panic m, st2)
      | .err _ => (.ok none, st2)
      | .ok (.Complete range rates date) =>
          (.ok (some (.HeartRate ⟨range, rates, date⟩)), st2)
      | .ok s2 => (.ok none, { st with heart_rate_state := some s2 })
  | none =>
    match HeartRateState.try_from packet with
    | .panic m => (.panic m, st)
    | .err e => (.err e, st)
    | .ok (.Complete range rates date) =>
        (.ok (some (.HeartRate ⟨range, rates, date⟩)), st)
    | .ok s2 => (.ok none, { st with heart_rate_state := some s2 })

/-- PacketParser::handle_sport_detail, src/incoming_messages/mod.rs.
With a partial state: take it, step it (an error propagates with the
state dropped), emit on Complete, store back otherwise.  With no
partial state: SportDetailState::new(packet).ok() is stored (None on
error) and no reply is produced for the frame, whatever the new state
is. -/
def handle_sport_detail (st : MultiPacketStates) (packet : List Nat) :
    PRes (Option CommandReply) × MultiPacketStates :=
  match st.sport_detail with
  | some ss =>
    let st2 := { st with sport_detail := none }
    match SportDetailState.step ss packet with
    | .panic m => (.panic m, st2)
    | .err e => (.err e, st2)
    | .ok (.Complete packets) => (.ok (some (.SportDetail packets)), st2)
    | .ok s2 => (.ok none, { st with sport_detail := some s2 })
  | none =>
    match SportDetailState.new packet with
    | .panic m => (.panic m, st)
    | .err _ => (.ok none, { st with sport_detail := none })
    | .ok s2 => (.ok none, { st with sport_detail := some s2 })

/-- PacketParser::handle_stress, src/incoming_messages/mod.rs: same
shape as handle_sport_detail. -/
def handle_stress (st : MultiPacketStates) (packet : List Nat) :
    PRes (Option CommandReply) × MultiPacketStates :=
  match st.stress_state with
  | some ss =>
    let st2 := { st with stress_state := none }
    match StressState.step ss packet with
    | .panic m => (.panic m, st2)
    | .err e => (.err e, st2)
    | .ok (.Complete measurements minutes_appart) =>
        (.ok (some (.Stress minutes_appart measurements)), st2)
    | .ok s2 => (.ok none, { st with stress_state := some s2 })
  | none =>
    match StressState.new packet with
    | .panic m => (.panic m, st)
    | .err _ => (.ok none, { st with stress_state := none })
    | .ok s2 => (.ok none, { st with stress_state := some s2 })

/-- PacketParser::handle_uart, src/incoming_messages/mod.rs: dispatch
on byte 0 of the frame (which aborts on an empty frame), in the order
of the match arms of the source (the constants are CMD_SET_DATE_TIME 1,
CMD_BATTERY 3, CMD_POWER_OFF 8, CMD_BLINK 16, CMD_SYNC_HEART_RATE 21,
CMD_AUTO_HR_PREF 22 guarded on byte 2 being 1 or 2, CMD_SYNC_STRESS 55,
CMD_SYNC_ACTIVITY 67, CMD_MANUAL_HEART_RATE 105, the literal 106, and a
catch-all producing Unknown). -/
def handle_uart (st : MultiPacketStates) (packet : List Nat) :
    PRes (Option CommandReply) × MultiPacketStates :=
  match idx packet 0 with
  | .panic m => (.panic m, st)
  | .err m => (.err m, st)
  | .ok b0 =>
    if b0 = 1 then (.ok (some .SetTime), st)
    else if b0 = 3 then
      (PRes.bind (idx packet 1) fun p1 =>
       PRes.bind (idx packet 2) fun p2 =>
       .ok (some (.BatteryInfo p1 (decide (0 < p2)))), st)
    else if b0 = 8 then (.ok (some .Reboot), st)
    else if b0 = 16 then (.ok (some .BlinkTwice), st)
    else if b0 = 21 then handle_heart_rate st packet
    else if b0 = 22 then
      match idx packet 2 with
      | .panic m => (.panic m, st)
      | .err m => (.err m, st)
      | .ok p2 =>
        if p2 = 1 ∨ p2 = 2 then
          (PRes.bind (idx packet 3) fun p3 =>
           .ok (some (.HeartRateSettings (p2 = 1) p3)), st)
        else (.ok (some (.Unknown packet)), st)
    else if b0 = 55 then handle_stress st packet
    else if b0 = 67 then handle_sport_detail st packet
    else if b0 = 105 then
      match handle_real_time packet with
      | .panic m => (.panic m, st)
      | .err m => (.err m, st)
      | .ok reply => (.ok (some reply), st)
    else if b0 = 106 then (.ok (some .StopRealTime), st)
    else (.ok (some (.Unknown packet)), st)

/-- PacketParser::check_for_complete_big_data,
src/incoming_messages/mod.rs.  The partial big-data state is taken out;
when it is complete, the kind is read from BYTE 1 OF THE REASSEMBLED
PAYLOAD (get_data_ref().get(1)) — not from the kind of the transaction:
39 dispatches to the sleep decoder, 42 yields Unknown with the raw
buffer, anything else is an error.  A partial or absent state is put
back and yields no reply.  The function only touches the
partial_big_data field, so it is modelled over that field. -/
def check_for_complete_big_data (today : Int) (st : Option BigDataState) :
    PRes (Option CommandReply) × Option BigDataState :=
  match st with
  | some (.Complete packet) =>
    match packet.data.get? 1 with
    | none => (.err "Error in big data packet, not long enough", none)
    | some kind =>
      if kind = 39 then
        match sleep_data_try_from today packet with
        | .error e => (.err e, none)
        | .ok sd => (.ok (some (.Sleep sd)), none)
      else if kind = 42 then
        (.ok (some (.Unknown packet.data)), none)
      else
        (.err "Unknown big data tag", none)
  | other => (.ok none, other)

/-- PacketParser::handle_v2, src/incoming_messages/mod.rs: with a
partial big-data state present the frame is appended to it (a step
error propagates and leaves the state in place); otherwise the frame
must open a transaction via BigDataState::new (an error propagates with
no state stored).  Either way the completion check runs afterwards. -/
def handle_v2 (today : Int) (st : Option BigDataState) (packet : List Nat) :
    PRes (Option CommandReply) × Option BigDataState :=
  match st with
  | some s =>
    match BigDataState.step s packet with
    | .error e => (.err e, some s)
    | .ok s2 => check_for_complete_big_data today (some s2)
  | none =>
    match BigDataState.new packet with
    | .panic m => (.panic m, none)
    | .err e => (.err e, none)
    | .ok s2 => check_for_complete_big_data today (some s2)

/-- A sequence of V2 frames through handle_v2, collecting each frame's
outcome and the final partial big-data state. -/
def run_v2 (today : Int) (st : Option BigDataState) :
    List (List Nat) → List (PRes (Option CommandReply)) × Option BigDataState
  | [] => ([], st)
  | p :: ps =>
    let step1 := handle_v2 today st p
    let rest := run_v2 today step1.2 ps
    (step1.1 :: rest.1, rest.2)

/-- The raw little-endian u16 at bytes 6..8 of a sport-detail record on
the wire, i.e. at bytes 7..9 of the carrying frame (the record is the
frame minus its opcode byte). -/
def raw_calories (frame : List Nat) : Nat := frame.getD 7 0 + 256 * frame.getD 8 0

/-- A sleep-decoder day block in structured form, for stating what the
decoder produces: days_ago, the minute-of-day bounds, and the
(stage, minutes) pairs. -/
structure DayBlock where
  days_ago : Nat
  start_min : Nat
  end_min : Nat
  stages : List (Nat × Nat)
deriving DecidableEq, Repr

/-- The wire form of a day block: days_ago, day_bytes = 4 + 2 per
stage pair, the two little-endian u16 minute bounds, then the pairs. -/
def enc_block (b : DayBlock) : List Nat :=
  [b.days_ago, 4 + 2 * b.stages.length, b.start_min % 256, b.start_min / 256,
   b.end_min % 256, b.end_min / 256] ++ (b.stages.map (fun q => [q.1, q.2])).flatten

/-- A day block every byte of which fits the wire format and that the
decoder accepts: days_ago at least 1 (the decoder subtracts 1 from it
in u64), at most 125 stage pairs (so day_bytes fits a u8), minute
bounds below 1440, stage codes among 0, 2, 3, 4, 5 and minute counts
fitting a byte. -/
def WellFormedBlock (b : DayBlock) : Prop :=
  1 ≤ b.days_ago ∧ b.days_ago ≤ 255 ∧ b.stages.length ≤ 125 ∧
  b.start_min < 1440 ∧ b.end_min < 1440 ∧
  ∀ q ∈ b.stages, (q.1 = 0 ∨ q.1 = 2 ∨ q.1 = 3 ∨ q.1 = 4 ∨ q.1 = 5) ∧ q.2 ≤ 255

instance (b : DayBlock) : Decidable (WellFormedBlock b) := by
  unfold WellFormedBlock; infer_instance

/-- The stage list the decoder keeps from the (stage, minutes) pairs of
a block: code 0 is skipped, 2/3/4/5 map to the four stages. -/
def stage_filter (q : Nat × Nat) : Option SleepStage :=
  if q.1 = 2 then some (.Light q.2)
  else if q.1 = 3 then some (.Deep q.2)
  else if q.1 = 4 then some (.Rem q.2)
  else if q.1 = 5 then some (.Awake q.2)
  else none

/-- The session the decoder builds from one well-formed day block:
dated to day = today - (days_ago - 1). -/
def session_of_block (today : Int) (b : DayBlock) : SleepSession :=
  let day : Int := today - (b.days_ago - 1 : Nat)
  { start := if b.end_min < b.start_min then day * 1440 - (1440 - (b.start_min : Int))
      else (day - 1) * 1440 + b.start_min
    end_ := day * 1440 + b.end_min
    stages := b.stages.filterMap stage_filter }

/-- What the parser holds of a sport-detail state: the records
accumulated so far (none in the initial state). -/
def sport_stash : SportDetailState → List SportDetail
  | .Initial _ => []
  | .Recieving _ packets => packets
  | .Complete packets => packets

/-- A sport-detail state of a running new-calorie batch. -/
def NcpState (s : SportDetailState) : Prop :=
  s = .Initial true ∨ ∃ ps, s = .Recieving true ps

/-!
Theorems.  Each claim of the review has one theorem below, preceded by
helper lemmas where the proof needs them.
-/

theorem bind_ok {α β : Type} {x : PRes α} {g : α → PRes β} {b : β}
    (h : PRes.bind x g = .ok b) : ∃ a, x = .ok a ∧ g a = .ok b := by
  cases x with
  | panic m => simp [PRes.bind] at h
  | err m => simp [PRes.bind] at h
  | ok a => exact ⟨a, rfl, h⟩

theorem encode_body_length (c : Command) : (encode_body c).length = 15 := by
  cases c <;> simp [encode_body, u32_le_bytes, resize_zero, List.length_take]
  omega

theorem frame_length_and_checksum (body : List Nat) (h : body.length = 15) :
    (body ++ [checksum (body ++ [0])]).length = 16 ∧
    (body ++ [checksum (body ++ [0])]).getLast? =
      some (((body ++ [checksum (body ++ [0])]).take 15).sum % 256) := by
  have htake : (body ++ [checksum (body ++ [0])]).take 15 = body := by
    rw [List.take_append_eq_append_take, h]
    simp [List.take_of_length_le, h.le]
  refine ⟨by simp [h], ?_⟩
  rw [htake, List.getLast?_concat]
  simp [checksum, List.sum_append]

/-- C1: encoding any Command yields exactly 16 bytes, and byte 15 of
the encoded frame is the low 8 bits of the sum of bytes 0 through 14,
for every variant, Raw payloads of any length included. -/
theorem c1_encode_sixteen_bytes_checksum (c : Command) :
    (command_to_bytes c).length = 16 ∧
    (command_to_bytes c).getLast? = some (((command_to_bytes c).take 15).sum % 256) :=
  frame_length_and_checksum (encode_body c) (encode_body_length c)

/-- C5: the SetTime arm writes (year.unsigned_abs() % 2000) as u8 into
byte 1, so encoding SetTime for 1970-01-01T00:00:00Z with language 0
puts 178 = (1970 % 2000) % 256 there, not 70 = 1970 % 100 as the
specified layout requires. -/
theorem c5_settime_epoch_year_byte :
    command_to_bytes (.SetTime ⟨1970, 1, 1, 0, 0, 0⟩ 0) =
      [1, 178, 1, 1, 0, 0, 0, 0, 0, 0, 0, 0, 0, 0, 0, 181] ∧
    (178 : Nat) ≠ 1970 % 100 := by
  exact ⟨by decide, by decide⟩

/-- C9: a one-byte battery frame [0x03] makes handle_uart read byte 1
out of bounds: the parser aborts instead of logging and dropping the
short frame. -/
theorem c9_short_battery_frame_panics :
    handle_uart initial_states [3] = (.panic "index out of bounds", initial_states) := by
  rfl

/-- C3: on the empty sport-detail sentinel frame [0x43, 0xff, ...] with
no sport-detail transaction in progress, handle_sport_detail stores the
Complete-empty state and produces NO reply for the frame, instead of
emitting SportDetail with an empty list. -/
theorem c3_empty_sport_detail_not_emitted :
    handle_uart initial_states [67, 255, 0, 0, 0, 0, 0, 0, 0, 0, 0, 0, 0, 0, 0, 66] =
      (.ok none, { initial_states with sport_detail := some (.Complete []) }) := by
  rfl

/-- C2: a single-frame 0xbc sleep transaction (kind 0x27, declared
length 2, payload [1, 0]) completes with accumulated length equal to
the declared length, yet check_for_complete_big_data reads byte 1 of
the reassembled payload (here 0) as the kind and errors out: no Sleep
reply is ever emitted, although the sleep decoder itself accepts the
payload. -/
theorem c2_completed_sleep_transaction_dropped :
    handle_v2 0 none [188, 39, 2, 0, 0, 0, 1, 0] = (.err "Unknown big data tag", none) ∧
    sleep_data_try_from 0 (.Sleep [1, 0]) = .ok ⟨[]⟩ := by
  exact ⟨by rfl, by rfl⟩

/-- C8 counterexample: a real-time frame with mode 2 and status 0
produces RealTimeData with an Oxygen event, not an Unknown reply. -/
theorem c8_mode_two_yields_oxygen :
    handle_real_time [105, 2, 0, 42] = .ok (.RealTimeData (.Oxygen 42)) ∧
    CommandReply.RealTimeData (.Oxygen 42) ≠ .Unknown [105, 2, 0, 42] := by
  exact ⟨by rfl, by decide⟩

/-- C8 (amended): for a real-time frame, a non-zero status byte yields
an Error event; with status 0, mode 1 yields a HeartRate event and
every other mode an Oxygen event (never Unknown). -/
theorem c8_real_time_dispatch (pkt : List Nat) (b1 b2 b3 : Nat)
    (h1 : pkt[1]? = some b1) (h2 : pkt[2]? = some b2) (h3 : pkt[3]? = some b3) :
    (b2 ≠ 0 → handle_real_time pkt = .ok (.RealTimeData (.Error b2))) ∧
    (b2 = 0 → b1 = 1 → handle_real_time pkt = .ok (.RealTimeData (.HeartRate b3))) ∧
    (b2 = 0 → b1 ≠ 1 → handle_real_time pkt = .ok (.RealTimeData (.Oxygen b3))) := by
  have h1i : idx pkt 1 = .ok b1 := by simp [idx, h1]
  have h2i : idx pkt 2 = .ok b2 := by simp [idx, h2]
  have h3i : idx pkt 3 = .ok b3 := by simp [idx, h3]
  refine ⟨fun hne => ?_, fun hz hone => ?_, fun hz hne => ?_⟩
  · simp [handle_real_time, h2i, PRes.bind, hne]
  · subst hz; subst hone; simp [handle_real_time, h1i, h2i, h3i, PRes.bind]
  · subst hz; simp [handle_real_time, h1i, h2i, h3i, PRes.bind, hne]

theorem c8_real_time_dispatch_witness :
    ((0 : Nat) ≠ 0 → handle_real_time [105, 1, 0, 77] = .ok (.RealTimeData (.Error 0))) ∧
    ((0 : Nat) = 0 → (1 : Nat) = 1 →
      handle_real_time [105, 1, 0, 77] = .ok (.RealTimeData (.HeartRate 77))) ∧
    ((0 : Nat) = 0 → (1 : Nat) ≠ 1 →
      handle_real_time [105, 1, 0, 77] = .ok (.RealTimeData (.Oxygen 77))) :=
  c8_real_time_dispatch [105, 1, 0, 77] 1 0 77 rfl rfl rfl

/-- C4 counterexample: the initial heart-rate frame [0x15, seq 0,
size 0xff, range 5, ...] with no heart-rate transaction in progress
does NOT produce a reply: try_from tests byte 1 of the unsliced frame
(the seq position) against 0xff, so a size byte of 0xff merely starts a
partial transaction of recorded size 254. -/
theorem c4_size_ff_starts_partial :
    handle_uart initial_states [21, 0, 255, 5, 0, 0, 0, 0, 0, 0, 0, 0, 0, 0, 0, 25] =
      (.ok none, { initial_states with heart_rate_state := some (.Length 254 5) }) ∧
    PRes.ok (none : Option CommandReply) ≠
      PRes.ok (some (.HeartRate ⟨0, [], 0⟩)) := by
  exact ⟨by rfl, by decide⟩

/-- C4 (amended): the no-data fast path of the heart-rate family
triggers on byte 1 of the frame, the seq position, because the
PacketParser hands try_from the unsliced frame: whenever byte 0 is 0x15
and byte 1 is 0xff and no heart-rate transaction is in progress, the
parser emits at once a HeartRate reply with range 0, no rates and the
epoch date, leaving the parser state unchanged. -/
theorem c4_seq_ff_fast_path (st : MultiPacketStates) (pkt : List Nat)
    (hst : st.heart_rate_state = none)
    (h0 : pkt[0]? = some 21) (h1 : pkt[1]? = some 255) :
    handle_uart st pkt = (.ok (some (.HeartRate ⟨0, [], 0⟩)), st) := by
  have h0i : idx pkt 0 = .ok 21 := by simp [idx, h0]
  have h1i : idx pkt 1 = .ok 255 := by simp [idx, h1]
  simp [handle_uart, h0i, handle_heart_rate, hst, HeartRateState.try_from, h1i, PRes.bind]

theorem c4_seq_ff_fast_path_witness :
    initial_states.heart_rate_state = none ∧
    ([21, 255] : List Nat)[0]? = some 21 ∧
    ([21, 255] : List Nat)[1]? = some 255 ∧
    handle_uart initial_states [21, 255] = (.ok (some (.HeartRate ⟨0, [], 0⟩)), initial_states) :=
  ⟨rfl, rfl, rfl, c4_seq_ff_fast_path initial_states [21, 255] rfl rfl rfl⟩

theorem extend_data_length (q : BigDataPacket) (bytes : List Nat) :
    (q.extend bytes).data.length = q.data.length + bytes.length := by
  cases q <;> simp [BigDataPacket.extend, BigDataPacket.data]

theorem run_v2_overshoot (today : Int) (target : Nat) (fs : List (List Nat)) :
    ∀ q : BigDataPacket, target < q.data.length →
    (run_v2 today (some (.Partial target q)) fs).1 = fs.map (fun _ => .ok none) ∧
    ∃ r, (run_v2 today (some (.Partial target q)) fs).2 = some (.Partial target r) ∧
      target < r.data.length := by
  induction fs with
  | nil => exact fun q hq => ⟨rfl, q, rfl, hq⟩
  | cons f fs ih =>
    intro q hq
    have hlen : target < (q.extend f).data.length := by
      rw [extend_data_length]; omega
    have hstep : handle_v2 today (some (.Partial target q)) f =
        (.ok none, some (.Partial target (q.extend f))) := by
      simp [handle_v2, BigDataState.step, check_for_complete_big_data, Nat.ne_of_gt hlen]
    obtain ⟨ha, r, hb, hc⟩ := ih (q.extend f) hlen
    refine ⟨?_, r, ?_, hc⟩
    · simp [run_v2, hstep, ha]
    · simp [run_v2, hstep, hb]

/-- C10: when appending a continuation frame makes the accumulated
big-data payload strictly exceed the declared target length, step still
returns Ok with the state Partial; from then on, because completion
requires exact length equality and the payload only grows, every later
V2 frame leaves the parser with a Partial state and yields neither a
reply nor an error. -/
theorem c10_overshoot_never_completes (today : Int) (target : Nat) (p : BigDataPacket)
    (bytes : List Nat) (fs : List (List Nat))
    (h : target < (p.extend bytes).data.length) :
    BigDataState.step (.Partial target p) bytes = .ok (.Partial target (p.extend bytes)) ∧
    (run_v2 today (some (.Partial target (p.extend bytes))) fs).1 =
      fs.map (fun _ => .ok none) ∧
    ∃ q, (run_v2 today (some (.Partial target (p.extend bytes))) fs).2 =
      some (.Partial target q) ∧ target < q.data.length := by
  have hstep : BigDataState.step (.Partial target p) bytes =
      .ok (.Partial target (p.extend bytes)) := by
    simp [BigDataState.step, Nat.ne_of_gt h]
  obtain ⟨ha, r, hb, hc⟩ := run_v2_overshoot today target fs (p.extend bytes) h
  exact ⟨hstep, ha, r, hb, hc⟩

theorem c10_overshoot_never_completes_witness :
    BigDataState.step (.Partial 1 (.Sleep [])) [7, 8] =
      .ok (.Partial 1 ((BigDataPacket.Sleep []).extend [7, 8])) ∧
    (run_v2 0 (some (.Partial 1 ((BigDataPacket.Sleep []).extend [7, 8]))) [[188, 1]]).1 =
      [[188, 1]].map (fun _ => .ok none) ∧
    ∃ q, (run_v2 0 (some (.Partial 1 ((BigDataPacket.Sleep []).extend [7, 8]))) [[188, 1]]).2 =
      some (.Partial 1 q) ∧ 1 < q.data.length :=
  c10_overshoot_never_completes 0 1 (.Sleep []) [7, 8] [[188, 1]] (by decide)

theorem getD_drop_one (l : List Nat) (n : Nat) : (l.drop 1).getD n 0 = l.getD (n + 1) 0 := by
  cases l <;> simp [List.getD]

theorem try_from_calories (v : List Nat) (p : SportDetail)
    (h : SportDetail.try_from v = .ok p) :
    p.calories = v.getD 6 0 + 256 * v.getD 7 0 := by
  unfold SportDetail.try_from at h
  split at h
  · exact absurd h (by simp)
  · simp only [Except.ok.injEq] at h
    subst h
    rfl

theorem try_from_drop_calories (f : List Nat) (p : SportDetail)
    (h : SportDetail.try_from (f.drop 1) = .ok p) :
    p.calories = raw_calories f := by
  rw [try_from_calories _ _ h, raw_calories, getD_drop_one, getD_drop_one]

theorem step_ncp_cal (s : SportDetailState) (f : List Nat) (s2 : SportDetailState)
    (hs : NcpState s) (h : SportDetailState.step s f = .ok s2) :
    (NcpState s2 ∨ ∃ ps, s2 = .Complete ps) ∧
    ∀ p ∈ sport_stash s2, p ∈ sport_stash s ∨ p.calories = 10 * raw_calories f % 65536 := by
  have hcal : ∀ r1 : SportDetail, SportDetail.try_from (f.drop 1) = .ok r1 →
      r1.apply_new_calories.calories = 10 * raw_calories f % 65536 := by
    intro r1 hr1
    simp [SportDetail.apply_new_calories, try_from_drop_calories f r1 hr1, Nat.mul_comm]
  rcases hs with hi | ⟨ps, hi⟩ <;> subst hi
  · simp only [SportDetailState.step] at h
    obtain ⟨p5, h5, h⟩ := bind_ok h
    obtain ⟨p6, h6, h⟩ := bind_ok h
    cases htf : SportDetail.try_from (f.drop 1) with
    | error e => rw [htf] at h; simp at h
    | ok rec1 =>
      simp only [htf] at h
      by_cases hd : p5 = (p6 + 255) % 256
      · rw [if_pos hd] at h
        simp only [PRes.ok.injEq] at h
        subst h
        refine ⟨Or.inr ⟨_, rfl⟩, ?_⟩
        intro p hp
        simp [sport_stash] at hp
        subst hp
        exact Or.inr (hcal rec1 htf)
      · rw [if_neg hd] at h
        simp only [PRes.ok.injEq] at h
        subst h
        refine ⟨Or.inl (Or.inr ⟨_, rfl⟩), ?_⟩
        intro p hp
        simp [sport_stash] at hp
        subst hp
        exact Or.inr (hcal rec1 htf)
  · simp only [SportDetailState.step] at h
    obtain ⟨p5, h5, h⟩ := bind_ok h
    obtain ⟨p6, h6, h⟩ := bind_ok h
    cases htf : SportDetail.try_from (f.drop 1) with
    | error e => rw [htf] at h; simp at h
    | ok rec1 =>
      simp only [htf] at h
      by_cases hd : p5 = (p6 + 255) % 256
      · rw [if_pos hd] at h
        simp only [PRes.ok.injEq] at h
        subst h
        refine ⟨Or.inr ⟨_, rfl⟩, ?_⟩
        intro p hp
        simp [sport_stash] at hp
        rcases hp with hp | hp
        · exact Or.inl (by simpa [sport_stash] using hp)
        · subst hp; exact Or.inr (hcal rec1 htf)
      · rw [if_neg hd] at h
        simp only [PRes.ok.injEq] at h
        subst h
        refine ⟨Or.inl (Or.inr ⟨_, rfl⟩), ?_⟩
        intro p hp
        simp [sport_stash] at hp
        rcases hp with hp | hp
        · exact Or.inl (by simpa [sport_stash] using hp)
        · subst hp; exact Or.inr (hcal rec1 htf)

theorem run_sport_ncp (fs : List (List Nat)) :
    ∀ s packets, NcpState s →
    run_sport_steps s fs = .ok (.Complete packets) →
    ∀ p ∈ packets, p ∈ sport_stash s ∨ ∃ f ∈ fs, p.calories = 10 * raw_calories f % 65536 := by
  induction fs with
  | nil =>
    intro s packets hs hrun p hp
    simp only [run_sport_steps, PRes.ok.injEq] at hrun
    subst hrun
    exact Or.inl hp
  | cons f fs ih =>
    intro s packets hs hrun p hp
    simp only [run_sport_steps] at hrun
    cases hst : SportDetailState.step s f with
    | panic m => rw [hst] at hrun; simp at hrun
    | err e => rw [hst] at hrun; simp at hrun
    | ok s2 =>
      rw [hst] at hrun
      obtain ⟨hcls, hins⟩ := step_ncp_cal s f s2 hs hst
      rcases hcls with hncp | ⟨ps, hps⟩
      · rcases ih s2 packets hncp hrun p hp with hstash | ⟨f2, hf2, hc2⟩
        · rcases hins p hstash with hl | hr
          · exact Or.inl hl
          · exact Or.inr ⟨f, List.mem_cons_self f fs, hr⟩
        · exact Or.inr ⟨f2, List.mem_cons_of_mem f hf2, hc2⟩
      · subst hps
        have hpa : packets = ps := by
          cases fs with
          | nil =>
            simp only [run_sport_steps, PRes.ok.injEq, SportDetailState.Complete.injEq] at hrun
            exact hrun.symm
          | cons g gs =>
            simp [run_sport_steps, SportDetailState.step] at hrun
        subst hpa
        rcases hins p hp with hl | hr
        · exact Or.inl hl
        · exact Or.inr ⟨f, List.mem_cons_self f fs, hr⟩

/-- C7 (amended): in a sport-detail batch opened by the new-calorie
prelude (byte 1 = 0xf0), every record of the emitted Complete batch has
a calories field equal to 10 times the raw little-endian u16 at bytes
6..8 of its record on the wire, REDUCED MODULO 2^16: the in-place u16
multiplication wraps (and a debug build aborts) once the raw value
exceeds 6553. -/
theorem c7_new_calorie_scaling (f0 : List Nat) (fs : List (List Nat))
    (packets : List SportDetail)
    (_hnew : SportDetailState.new f0 = .ok (.Initial true))
    (hrun : run_sport_steps (.Initial true) fs = .ok (.Complete packets)) :
    ∀ p ∈ packets, ∃ f ∈ fs, p.calories = 10 * raw_calories f % 65536 := by
  intro p hp
  rcases run_sport_ncp fs (.Initial true) packets (Or.inl rfl) hrun p hp with hl | hr
  · simp [sport_stash] at hl
  · exact hr

/-- C7 counterexample: a new-calorie batch whose single record carries
the raw calorie value 10000 is emitted with calories 34464 = 100000 mod
2^16, not 100000 = 10 times the raw value. -/
theorem c7_calories_wrap :
    SportDetailState.new [67, 240, 1, 1, 0, 0, 0, 0, 0, 0, 0, 0, 0, 0, 0, 53] =
      .ok (.Initial true) ∧
    run_sport_steps (.Initial true) [[67, 36, 16, 21, 92, 0, 1, 16, 39, 0, 0, 0, 0, 0, 0, 0]] =
      .ok (.Complete [⟨2024, 10, 15, 92, 34464, 0, 0⟩]) ∧
    (34464 : Nat) ≠ 10 * 10000 := by
  exact ⟨by rfl, by rfl, by decide⟩

theorem c7_new_calorie_scaling_witness :
    SportDetailState.new [67, 240, 1, 1, 0, 0, 0, 0, 0, 0, 0, 0, 0, 0, 0, 53] =
      .ok (.Initial true) ∧
    run_sport_steps (.Initial true)
        [[67, 36, 16, 21, 92, 0, 1, 121, 0, 21, 0, 16, 0, 0, 0, 135]] =
      .ok (.Complete [⟨2024, 10, 15, 92, 1210, 21, 16⟩]) ∧
    ∀ p ∈ ([⟨2024, 10, 15, 92, 1210, 21, 16⟩] : List SportDetail),
      ∃ f ∈ [[67, 36, 16, 21, 92, 0, 1, 121, 0, 21, 0, 16, 0, 0, 0, 135]],
        p.calories = 10 * raw_calories f % 65536 :=
  ⟨rfl, rfl,
    c7_new_calorie_scaling [67, 240, 1, 1, 0, 0, 0, 0, 0, 0, 0, 0, 0, 0, 0, 53]
      [[67, 36, 16, 21, 92, 0, 1, 121, 0, 21, 0, 16, 0, 0, 0, 135]]
      [⟨2024, 10, 15, 92, 1210, 21, 16⟩] rfl rfl⟩

theorem parse_stages_spec (stages : List (Nat × Nat)) (rest : List Nat)
    (hlen : stages.length ≤ 125)
    (hvalid : ∀ q ∈ stages, q.1 = 0 ∨ q.1 = 2 ∨ q.1 = 3 ∨ q.1 = 4 ∨ q.1 = 5) :
    parse_stages (2 * stages.length) ((stages.map (fun q => [q.1, q.2])).flatten ++ rest) =
      .ok (stages.filterMap stage_filter, rest) := by
  induction stages with
  | nil => simp [parse_stages]
  | cons q t ih =>
    have ht : t.length ≤ 125 := by
      simp only [List.length_cons] at hlen; omega
    have htv : ∀ r ∈ t, r.1 = 0 ∨ r.1 = 2 ∨ r.1 = 3 ∨ r.1 = 4 ∨ r.1 = 5 :=
      fun r hr => hvalid r (List.mem_cons_of_mem q hr)
    have hq := hvalid q (List.mem_cons_self q t)
    have h2 : 2 * (q :: t).length = 2 * t.length + 1 + 1 := by
      simp [List.length_cons]; omega
    have harith : (2 * t.length + 1 + 255) % 256 = 2 * t.length := by omega
    rw [h2]
    simp only [List.map_cons, List.flatten_cons, List.cons_append, List.append_assoc]
    rw [parse_stages, harith]
    rcases hq with h0 | h0 | h0 | h0 | h0 <;>
      simp [h0, sleep_stage_of, stage_filter, ih ht htv]

theorem parse_day_spec (today : Int) (b : DayBlock) (rest : List Nat)
    (hwf : WellFormedBlock b) :
    parse_day today (enc_block b ++ rest) = .ok (session_of_block today b, rest) := by
  obtain ⟨h1, h2, h3, h4, h5, h6⟩ := hwf
  have hv : ∀ q ∈ b.stages, q.1 = 0 ∨ q.1 = 2 ∨ q.1 = 3 ∨ q.1 = 4 ∨ q.1 = 5 :=
    fun q hq => (h6 q hq).1
  simp only [enc_block, List.cons_append, List.nil_append, List.append_assoc]
  unfold parse_day
  simp only [next_byte, try_u16_from_iter]
  rw [if_neg (by omega)]
  rw [Nat.mod_add_div, Nat.mod_add_div]
  rw [if_neg (by rintro ⟨-, hgt⟩; omega)]
  have harith : (4 + 2 * b.stages.length + 252) % 256 = 2 * b.stages.length := by omega
  rw [harith, parse_stages_spec b.stages rest h3 hv]
  simp [session_of_block]

theorem parse_days_spec (today : Int) (bs : List DayBlock)
    (hwf : ∀ b ∈ bs, WellFormedBlock b) :
    parse_days today bs.length ((bs.map enc_block).flatten) =
      .ok (bs.map (session_of_block today)) := by
  induction bs with
  | nil => simp [parse_days]
  | cons b t ih =>
    simp only [List.map_cons, List.flatten_cons, List.length_cons]
    rw [parse_days, parse_day_spec today b _ (hwf b (List.mem_cons_self b t))]
    simp [ih fun r hr => hwf r (List.mem_cons_of_mem b hr)]

/-- C6 (amended): decoding a reassembled sleep buffer laid out as
days-count then day blocks reads only the FIRST days - 1 blocks and
produces one SleepSession per block read — days - 1 sessions when every
block is well formed — and each session is dated to the calendar day
today - (days_ago - 1), one day later than the days_ago byte of its
block says. -/
theorem c6_sleep_sessions (today : Int) (bs : List DayBlock)
    (_hcount : bs.length ≤ 254)
    (hwf : ∀ b ∈ bs, WellFormedBlock b) :
    sleep_data_try_from today (.Sleep ((bs.length + 1) :: (bs.map enc_block).flatten)) =
      .ok ⟨bs.map (session_of_block today)⟩ := by
  unfold sleep_data_try_from
  simp only [Nat.add_sub_cancel]
  rw [parse_days_spec today bs hwf]

/-- C6 counterexample: a buffer declaring 2 days and carrying two
well-formed day blocks decodes to a single session, not two, and that
session (from the block with days_ago 1) ends at midnight of today
rather than of today - 1. -/
theorem c6_day_count_and_date :
    sleep_data_try_from 100 (.Sleep [2, 1, 4, 0, 0, 0, 0, 2, 4, 0, 0, 0, 0]) =
      .ok ⟨[⟨142560, 144000, []⟩]⟩ ∧
    ([⟨142560, 144000, []⟩] : List SleepSession).length ≠ 2 ∧
    (144000 : Int) ≠ (100 - 1) * 1440 := by
  exact ⟨by rfl, by decide, by decide⟩

theorem c6_sleep_sessions_witness :
    ([⟨1, 100, 200, [(2, 30), (0, 5), (5, 10)]⟩] : List DayBlock).length ≤ 254 ∧
    (∀ b ∈ ([⟨1, 100, 200, [(2, 30), (0, 5), (5, 10)]⟩] : List DayBlock),
      WellFormedBlock b) ∧
    sleep_data_try_from 0
        (.Sleep ((([⟨1, 100, 200, [(2, 30), (0, 5), (5, 10)]⟩] : List DayBlock).length + 1) ::
          (([⟨1, 100, 200, [(2, 30), (0, 5), (5, 10)]⟩] : List DayBlock).map enc_block).flatten)) =
      .ok ⟨([⟨1, 100, 200, [(2, 30), (0, 5), (5, 10)]⟩] : List DayBlock).map
        (session_of_block 0)⟩ :=
  ⟨by decide, by decide,
    c6_sleep_sessions 0 [⟨1, 100, 200, [(2, 30), (0, 5), (5, 10)]⟩] (by decide) (by decide)⟩
